import Mathlib

/-!
Verification of the alias-resolver table and configuration-layer list of
the `@10xScale/eslint-config` package (file `package/index.js`).

Strings are embedded as lists of characters (`Str`), so that reasoning
about textual prefixes and suffixes is inductive.
-/

/-- Character-list view of the JavaScript strings of the configuration. -/
abbrev Str := List Char

/-- A path is absolute when it begins with a slash (POSIX view used by
Node path functions for the paths occurring in the config). -/
def isAbsolute (s : Str) : Bool :=
  match s with
  | '/' :: _ => true
  | _ => false

/-- Drop a leading dot-slash segment, as Node path normalization does to
the relative parts written in the config. -/
def dotSlashStrip (rel : Str) : Str :=
  if ("./".toList).isPrefixOf rel then rel.drop 2 else rel

/-- Model of Node `path.resolve(base, rel)` for the argument shapes used
by the config: a call site `path.resolve(__dirname, "./x")` resolves from
right to left, falling back to the process working directory `cwd` only
when `base` is itself relative. -/
def pathResolve (cwd base rel : Str) : Str :=
  if isAbsolute rel then rel
  else (if isAbsolute base then base else cwd ++ '/' :: base) ++ '/' :: dotSlashStrip rel

/-- The alias table of `settings["import/resolver"].alias.map`
(package/index.js lines 296-307): ten pairs of a symbolic alias and a
physical directory produced by `path.resolve(__dirname, ...)`.  `cwd`
is the consuming process working directory, `d` is `__dirname`. -/
def aliasMap (cwd d : Str) : List (Str × Str) :=
  [("@".toList, pathResolve cwd d ("./src".toList)),
   ("@hooks".toList, pathResolve cwd d ("./src/hooks".toList)),
   ("@lib".toList, pathResolve cwd d ("./src/lib".toList)),
   ("@context".toList, pathResolve cwd d ("./src/lib/context".toList)),
   ("@pages".toList, pathResolve cwd d ("./src/pages".toList)),
   ("@constants".toList, pathResolve cwd d ("./src/lib/constants".toList)),
   ("@api".toList, pathResolve cwd d ("./src/services/api".toList)),
   ("@query".toList, pathResolve cwd d ("./src/services/query".toList)),
   ("@store".toList, pathResolve cwd d ("./src/services/store".toList)),
   ("@public".toList, pathResolve cwd d ("./public".toList))]

/-- The symbolic/relative-directory content of the alias table, with the
`__dirname` part factored out (the relative parts after normalization). -/
def absPairs : List (Str × Str) :=
  [("@".toList, "/src".toList),
   ("@hooks".toList, "/src/hooks".toList),
   ("@lib".toList, "/src/lib".toList),
   ("@context".toList, "/src/lib/context".toList),
   ("@pages".toList, "/src/pages".toList),
   ("@constants".toList, "/src/lib/constants".toList),
   ("@api".toList, "/src/services/api".toList),
   ("@query".toList, "/src/services/query".toList),
   ("@store".toList, "/src/services/store".toList),
   ("@public".toList, "/public".toList)]

/-- The extension list configured for both the alias resolver and the
node resolver (package/index.js lines 308 and 311). -/
def cfgExtensions : List Str := [".js".toList, ".jsx".toList]

lemma pathResolve_rel (cwd d rel : Str) (hd : isAbsolute d = true)
    (hrel : isAbsolute rel = false) :
    pathResolve cwd d rel = d ++ '/' :: dotSlashStrip rel := by
  simp [pathResolve, hrel, hd]

lemma aliasMap_abs (cwd d : Str) (hd : isAbsolute d = true) :
    aliasMap cwd d = absPairs.map (fun e => (e.1, d ++ e.2)) := by
  simp only [aliasMap]
  rw [pathResolve_rel cwd d ("./src".toList) hd (by decide),
      pathResolve_rel cwd d ("./src/hooks".toList) hd (by decide),
      pathResolve_rel cwd d ("./src/lib".toList) hd (by decide),
      pathResolve_rel cwd d ("./src/lib/context".toList) hd (by decide),
      pathResolve_rel cwd d ("./src/pages".toList) hd (by decide),
      pathResolve_rel cwd d ("./src/lib/constants".toList) hd (by decide),
      pathResolve_rel cwd d ("./src/services/api".toList) hd (by decide),
      pathResolve_rel cwd d ("./src/services/query".toList) hd (by decide),
      pathResolve_rel cwd d ("./src/services/store".toList) hd (by decide),
      pathResolve_rel cwd d ("./public".toList) hd (by decide)]
  simp [absPairs]
  decide

/-- Modelled from the spec: result of alias resolution (spec section 4.1).
The resolver itself (`eslint-import-resolver-alias`) is not part of this
repository; only its configuration table is.  A specifier either resolves
to a physical file, is recognized as an alias whose candidates all fail
the existence check (`unresolved`), or matches no table entry
(`notAnAlias`, signalling node-style fallback). -/
inductive Resolution where
  | resolved : Str → Resolution
  | unresolved : Resolution
  | notAnAlias : Resolution
deriving DecidableEq

/-- Modelled from the spec: one step of the table scan, comparing a table
entry against the best entry found so far.  A longer match replaces the
current best; an equally long or shorter match leaves it, so between two
identical aliases the entry scanned later (added later in construction
order) is the one retained (spec section 7). -/
def pickBetter (e : Str × Str) (s : Str) : Option (Str × Str) → Option (Str × Str)
  | none => if e.1.isPrefixOf s then some e else none
  | some r =>
    if e.1.isPrefixOf s && decide (r.1.length < e.1.length) then some e else some r

/-- Modelled from the spec: the table scan of `resolve` (spec section 4.1).
The resolver itself (`eslint-import-resolver-alias`) is not part of this
repository, only its configuration table is; the scan is modelled from
the spec words: entries whose symbolic alias is a textual leading part of
the specifier match, and the longest matching alias wins. -/
def bestMatch : List (Str × Str) → Str → Option (Str × Str)
  | [], _ => none
  | e :: t, s => pickBetter e s (bestMatch t s)

/-- Modelled from the spec: `resolve(specifier)` (spec sections 4.1 and 8).
The missing resolver is modelled over an explicit filesystem `fs`, the
list of files that exist: the matched entry's directory replaces the
alias, each configured extension is tried in order, and the first
candidate present in `fs` is returned. -/
def resolve (table : List (Str × Str)) (exts : List Str) (fs : List Str) (s : Str) :
    Resolution :=
  match bestMatch table s with
  | none => .notAnAlias
  | some e =>
    match exts.find? (fun x => fs.contains (e.2 ++ s.drop e.1.length ++ x)) with
    | some x => .resolved (e.2 ++ s.drop e.1.length ++ x)
    | none => .unresolved

/-- The alias table of the end-to-end scenario of spec section 8. -/
def specExampleTable : List (Str × Str) :=
  [("@".toList, "./src".toList), ("@hooks".toList, "./src/hooks".toList)]

lemma isPrefixOf_append_left (d a b : Str) :
    (d ++ a).isPrefixOf (d ++ b) = a.isPrefixOf b := by
  induction d with
  | nil => rfl
  | cons c t ih => simp [List.isPrefixOf, ih]

lemma isPrefixOf_self_append (a t : Str) : a.isPrefixOf (a ++ t) = true := by
  induction a with
  | nil => simp
  | cons c r ih => simp [List.isPrefixOf, ih]

lemma bestMatch_map (f : Str → Str) (t : List (Str × Str)) (s : Str) :
    bestMatch (t.map (fun e => (e.1, f e.2))) s
      = (bestMatch t s).map (fun e => (e.1, f e.2)) := by
  induction t with
  | nil => rfl
  | cons e t ih =>
    simp only [List.map_cons, bestMatch, ih]
    rcases h : bestMatch t s with _ | r
    · by_cases hp : e.1.isPrefixOf s <;> simp [pickBetter, hp]
    · by_cases hp : e.1.isPrefixOf s && decide (r.1.length < e.1.length) <;>
        simp [pickBetter, hp]

lemma bestMatch_map_eq (f : Str → Str) (t : List (Str × Str)) (s : Str) (e : Str × Str)
    (h : bestMatch t s = some e) :
    bestMatch (t.map (fun x => (x.1, f x.2))) s = some (e.1, f e.2) := by
  rw [bestMatch_map, h]; rfl

lemma bestMatch_mem (t : List (Str × Str)) (s : Str) :
    ∀ r, bestMatch t s = some r → r ∈ t ∧ r.1.isPrefixOf s = true := by
  induction t with
  | nil => intro r h; exact Option.noConfusion h
  | cons b u ih =>
    intro r h
    simp only [bestMatch] at h
    rcases hu : bestMatch u s with _ | r'
    · rw [hu] at h
      simp only [pickBetter] at h
      by_cases hp : b.1.isPrefixOf s
      · rw [if_pos hp] at h
        cases h
        exact ⟨List.mem_cons_self _ _, hp⟩
      · rw [if_neg hp] at h
        exact Option.noConfusion h
    · rw [hu] at h
      simp only [pickBetter] at h
      by_cases hp : b.1.isPrefixOf s && decide (r'.1.length < b.1.length)
      · rw [if_pos hp] at h
        cases h
        rw [Bool.and_eq_true] at hp
        exact ⟨List.mem_cons_self _ _, hp.1⟩
      · rw [if_neg hp] at h
        cases h
        have := ih r hu
        exact ⟨List.mem_cons_of_mem _ this.1, this.2⟩

lemma bestMatch_none_iff (t : List (Str × Str)) (s : Str) :
    bestMatch t s = none ↔ ∀ e ∈ t, e.1.isPrefixOf s = false := by
  induction t with
  | nil => simp [bestMatch]
  | cons a t ih =>
    simp only [bestMatch]
    rcases h : bestMatch t s with _ | r
    · simp only [pickBetter]
      by_cases hp : a.1.isPrefixOf s
      · constructor
        · intro hcontra
          rw [if_pos hp] at hcontra
          exact Option.noConfusion hcontra
        · intro hall
          have := hall a (List.mem_cons_self a t)
          rw [hp] at this
          exact Bool.noConfusion this
      · rw [if_neg hp]
        constructor
        · intro _ e he
          rcases List.mem_cons.mp he with rfl | he
          · rw [← Bool.not_eq_true]
            exact hp
          · exact (ih.mp h) e he
        · intro _
          rfl
    · simp only [pickBetter]
      constructor
      · intro hcontra
        by_cases hp : a.1.isPrefixOf s && decide (r.1.length < a.1.length)
        · rw [if_pos hp] at hcontra
          exact Option.noConfusion hcontra
        · rw [if_neg hp] at hcontra
          exact Option.noConfusion hcontra
      · intro hall
        have hr := bestMatch_mem t s r h
        have hfalse := hall r (List.mem_cons_of_mem a hr.1)
        exact absurd hr.2 (by simp [hfalse])

lemma bestMatch_ge (t : List (Str × Str)) (s : Str) (e : Str × Str)
    (hp : e.1.isPrefixOf s = true) :
    ∀ r, bestMatch t s = some r → e ∈ t → e.1.length ≤ r.1.length := by
  induction t with
  | nil => intro r _ he; cases he
  | cons b u ih =>
    intro r h he
    simp only [bestMatch] at h
    rcases hu : bestMatch u s with _ | r'
    · rw [hu] at h
      simp only [pickBetter] at h
      by_cases hp2 : b.1.isPrefixOf s
      · rw [if_pos hp2] at h
        cases h
        rcases List.mem_cons.mp he with rfl | hmem
        · exact Nat.le_refl _
        · have := (bestMatch_none_iff u s).mp hu e hmem
          rw [hp] at this
          exact Bool.noConfusion this
      · rw [if_neg hp2] at h
        exact Option.noConfusion h
    · rw [hu] at h
      simp only [pickBetter] at h
      by_cases hc : b.1.isPrefixOf s && decide (r'.1.length < b.1.length)
      · rw [if_pos hc] at h
        cases h
        rcases List.mem_cons.mp he with rfl | hmem
        · exact Nat.le_refl _
        · have h1 := ih r' hu hmem
          rw [Bool.and_eq_true] at hc
          exact Nat.le_of_lt (Nat.lt_of_le_of_lt h1 (of_decide_eq_true hc.2))
      · rw [if_neg hc] at h
        cases h
        rcases List.mem_cons.mp he with rfl | hmem
        · have hnlt : ¬ (r.1.length < e.1.length) := by
            intro hlt
            exact hc (by rw [Bool.and_eq_true]; exact ⟨hp, decide_eq_true hlt⟩)
          exact Nat.le_of_not_lt hnlt
        · exact ih r hu hmem

/-- JSON-like values carried by rule settings, language options and
plugin wiring.  `ext` stands for an opaque imported JavaScript value
(a plugin module or a parser), `regex` for a regular-expression literal
given by its source text. -/
inductive Json where
  | str : String → Json
  | num : Int → Json
  | bool : Bool → Json
  | regex : String → Json
  | arr : List Json → Json
  | obj : List (String × Json) → Json
  | ext : String → Json

/-- One entry of the ordered configuration-layer list handed to the lint
engine: each layer optionally carries ignore patterns, a files scope,
language options, plugin wiring, rules, and settings. -/
structure ImportResolverSettings where
  aliasTable : List (Str × Str)
  aliasExtensions : List Str
  nodeExtensions : List Str

structure LayerSettings where
  importResolver : ImportResolverSettings
  react : Json
  propWrapperFunctions : Json
  componentWrapperFunctions : Json
  formComponents : Json
  linkComponents : Json

structure Layer where
  ignores : Option (List Str) := none
  files : Option (List Str) := none
  languageOptions : Option Json := none
  plugins : Option (List (String × Json)) := none
  rules : Option (List (String × Json)) := none
  settings : Option LayerSettings := none

/-- The global-ignores layer, first entry of the default export
(package/index.js lines 35-47). -/
def ignoresLayer : Layer :=
  { ignores := some
      ["dist/**/*".toList,
       "build/**/*".toList,
       "node_modules/**/*".toList,
       "vite.config.js".toList,
       "src/components/ui/**/*".toList,
       "public/**/*".toList,
       "*.min.js".toList,
       ".prettierrc.cjs".toList,
       "eslint.config.js".toList] }

/-- The `unicorn/filename-case` value of the base rules block
(package/index.js lines 225-242). -/
def mainFilenameCase : Json :=
  .arr [.str "error",
    .obj [("cases", .obj [("camelCase", .bool true), ("pascalCase", .bool true)]),
          ("ignore", .arr
            [.regex "^[A-Z]+\\..*$",
             .regex ".*\\.component\\.jsx?$",
             .regex ".*\\.hook\\.js$",
             .regex ".*\\.api\\.js$",
             .regex ".*\\.query\\.js$",
             .regex ".*\\.slice\\.js$",
             .regex ".*\\.test\\.jsx?$",
             .regex ".*\\.story\\.jsx?$",
             .regex ".*\\.config\\.js$",
             .regex ".*\\.constant\\.js$"])]]

set_option maxHeartbeats 1000000 in
/-- The rules block of the main configuration layer
(package/index.js lines 89-292). -/
def mainRules : List (String × Json) :=
  [("no-var", .str "error"),
   ("prefer-const", .str "error"),
   ("prefer-template", .str "error"),
   ("prefer-destructuring",
     .arr [.str "error", .obj [("array", .bool true), ("object", .bool true)]]),
   ("object-curly-spacing", .arr [.str "error", .str "always"]),
   ("array-bracket-spacing", .arr [.str "error", .str "never"]),
   ("comma-dangle", .arr [.str "off"]),
   ("no-unused-vars",
     .arr [.str "error",
       .obj [("varsIgnorePattern", .str "^_"),
             ("argsIgnorePattern", .str "^_"),
             ("ignoreRestSiblings", .bool true)]]),
   ("no-console", .arr [.str "warn", .obj [("allow", .arr [.str "warn", .str "error"])]]),
   ("no-debugger", .str "warn"),
   ("import/order",
     .arr [.str "error",
       .obj [("groups", .arr
               [.str "builtin", .str "external", .str "internal",
                .str "parent", .str "sibling", .str "index"]),
             ("newlines-between", .str "always"),
             ("alphabetize", .obj [("order", .str "asc"), ("caseInsensitive", .bool true)])]]),
   ("import/no-default-export", .str "off"),
   ("import/prefer-default-export", .str "off"),
   ("import/no-duplicates", .str "error"),
   ("react/function-component-definition",
     .arr [.str "error",
       .obj [("namedComponents", .str "arrow-function"),
             ("unnamedComponents", .str "arrow-function")]]),
   ("react/prefer-stateless-function", .str "error"),
   ("react/no-multi-comp", .arr [.str "error", .obj [("ignoreStateless", .bool true)]]),
   ("react/jsx-filename-extension",
     .arr [.str "error", .obj [("extensions", .arr [.str ".jsx"])]]),
   ("react/jsx-fragments", .arr [.str "error", .str "syntax"]),
   ("react/jsx-no-useless-fragment",
     .arr [.str "error", .obj [("allowExpressions", .bool true)]]),
   ("react/jsx-curly-brace-presence",
     .arr [.str "error", .obj [("props", .str "never"), ("children", .str "never")]]),
   ("react/jsx-boolean-value", .arr [.str "error", .str "never"]),
   ("react/jsx-wrap-multilines",
     .arr [.str "error",
       .obj [("declaration", .str "parens-new-line"),
             ("assignment", .str "parens-new-line"),
             ("return", .str "parens-new-line"),
             ("arrow", .str "parens-new-line"),
             ("condition", .str "parens-new-line"),
             ("logical", .str "parens-new-line"),
             ("prop", .str "parens-new-line")]]),
   ("react/jsx-handler-names",
     .arr [.str "error",
       .obj [("eventHandlerPrefix", .str "handle"),
             ("eventHandlerPropPrefix", .str "on"),
             ("checkLocalVariables", .bool true)]]),
   ("react/no-access-state-in-setstate", .str "error"),
   ("react/no-redundant-should-component-update", .str "error"),
   ("react/no-typos", .str "error"),
   ("react/no-unsafe", .str "error"),
   ("react/no-unused-state", .str "error"),
   ("react/jsx-no-bind", .arr [.str "off"]),
   ("react/jsx-no-constructed-context-values", .str "error"),
   ("react/prop-types", .str "error"),
   ("react/require-default-props", .str "error"),
   ("react/default-props-match-prop-types", .str "error"),
   ("react/display-name", .arr [.str "error", .obj [("ignoreTranspilerName", .bool false)]]),
   ("react/no-array-index-key", .str "error"),
   ("react/no-danger", .str "warn"),
   ("react/no-this-in-sfc", .str "error"),
   ("react/no-unescaped-entities", .str "error"),
   ("react/no-unknown-property", .str "error"),
   ("react/void-dom-elements-no-children", .str "error"),
   ("react-hooks/rules-of-hooks", .str "error"),
   ("react-hooks/exhaustive-deps",
     .arr [.str "error", .obj [("additionalHooks", .str "(useAsyncEffect|useUpdateEffect)")]]),
   ("jsx-a11y/anchor-is-valid",
     .arr [.str "error",
       .obj [("components", .arr [.str "Link"]),
             ("specialLink", .arr [.str "hrefLeft", .str "hrefRight"]),
             ("aspects", .arr [.str "invalidHref", .str "preferButton"])]]),
   ("jsx-a11y/click-events-have-key-events", .str "error"),
   ("jsx-a11y/no-static-element-interactions", .str "error"),
   ("unicorn/prefer-node-protocol", .str "error"),
   ("unicorn/prefer-module", .str "error"),
   ("unicorn/prefer-optional-catch-binding", .str "error"),
   ("unicorn/prefer-string-starts-ends-with", .str "error"),
   ("unicorn/prefer-array-find", .str "error"),
   ("unicorn/prefer-array-some", .str "error"),
   ("unicorn/prefer-includes", .str "error"),
   ("unicorn/prefer-array-flat", .str "error"),
   ("unicorn/prefer-array-flat-map", .str "error"),
   ("unicorn/no-array-push-push", .str "error"),
   ("unicorn/prefer-spread", .str "error"),
   ("unicorn/prefer-string-slice", .str "error"),
   ("unicorn/prefer-string-trim-start-end", .str "error"),
   ("unicorn/prevent-abbreviations",
     .arr [.str "error", .obj [("checkFilenames", .bool false)]]),
   ("unicorn/filename-case", mainFilenameCase),
   ("sonarjs/cognitive-complexity", .arr [.str "error", .num 15]),
   ("sonarjs/max-switch-cases", .arr [.str "error", .num 10]),
   ("sonarjs/no-duplicate-string", .arr [.str "error", .obj [("threshold", .num 2)]]),
   ("sonarjs/no-identical-functions", .str "error"),
   ("complexity", .arr [.str "error", .obj [("max", .num 10)]]),
   ("max-depth", .arr [.str "error", .obj [("max", .num 4)]]),
   ("max-lines-per-function",
     .arr [.str "error",
       .obj [("max", .num 100), ("skipBlankLines", .bool true), ("skipComments", .bool true)]]),
   ("max-params", .arr [.str "error", .obj [("max", .num 10)]]),
   ("array-callback-return", .arr [.str "error", .obj [("allowImplicit", .bool true)]]),
   ("block-scoped-var", .str "error"),
   ("consistent-return", .str "error"),
   ("curly", .arr [.str "error", .str "multi-line"]),
   ("default-case", .arr [.str "error", .obj [("commentPattern", .str "^no default$")]]),
   ("default-case-last", .str "error"),
   ("default-param-last", .str "error"),
   ("dot-notation", .arr [.str "error", .obj [("allowKeywords", .bool true)]]),
   ("dot-location", .arr [.str "error", .str "property"]),
   ("class-methods-use-this", .arr [.str "error", .obj [("exceptMethods", .arr [])]]),
   ("jsdoc/check-alignment", .str "error"),
   ("jsdoc/check-indentation", .str "error"),
   ("react/react-in-jsx-scope", .str "off"),
   ("jsdoc/require-returns", .str "off"),
   ("jsdoc/require-param", .str "off")]

/-- The settings block of the main configuration layer
(package/index.js lines 293-340). -/
def mainSettings (cwd d : Str) : LayerSettings :=
  { importResolver :=
      { aliasTable := aliasMap cwd d,
        aliasExtensions := [".js".toList, ".jsx".toList],
        nodeExtensions := [".js".toList, ".jsx".toList] },
    react := .obj [("pragma", .str "React"), ("version", .str "detect")],
    propWrapperFunctions := .arr
      [.str "forbidExtraProps",
       .obj [("property", .str "freeze"), ("object", .str "Object")],
       .obj [("property", .str "myFavoriteWrapper")],
       .obj [("property", .str "forbidExtraProps"), ("exact", .bool true)]],
    componentWrapperFunctions := .arr
      [.str "observer",
       .obj [("property", .str "styled")],
       .obj [("property", .str "observer"), ("object", .str "Mobx")],
       .obj [("property", .str "observer"), ("object", .str "React")]],
    formComponents := .arr
      [.str "CustomForm",
       .obj [("name", .str "SimpleForm"), ("formAttribute", .str "endpoint")],
       .obj [("name", .str "Form"),
             ("formAttribute", .arr [.str "registerEndpoint", .str "loginEndpoint"])]],
    linkComponents := .arr
      [.str "Hyperlink",
       .obj [("name", .str "MyLink"), ("linkAttribute", .str "to")],
       .obj [("name", .str "Link"), ("linkAttribute", .arr [.str "to", .str "href"])]] }

/-- The main configuration layer (package/index.js lines 58-341):
language options, plugin wiring, the base rules block and the settings
holding the alias table. -/
def mainLayer (cwd d : Str) : Layer :=
  { languageOptions := some (.obj
      [("ecmaVersion", .num 2024),
       ("sourceType", .str "module"),
       ("parser", .ext "babelParser"),
       ("parserOptions", .obj
         [("ecmaFeatures", .obj [("jsx", .bool true)]),
          ("requireConfigFile", .bool false),
          ("babelOptions", .obj [("presets", .arr [.str "@babel/preset-react"])])]),
       ("globals", .obj
         [("browser", .bool true), ("node", .bool true), ("jest", .bool true)])]),
    plugins := some
      [("react", .ext "reactPlugin"),
       ("react-hooks", .ext "reactHooksPlugin"),
       ("jsx-a11y", .ext "jsxA11yPlugin"),
       ("import", .ext "importPlugin"),
       ("unicorn", .ext "unicornPlugin"),
       ("sonarjs", .ext "sonarjsPlugin"),
       ("promise", .ext "promisePlugin"),
       ("prettier", .ext "prettierPlugin")],
    rules := some mainRules,
    settings := some (mainSettings cwd d) }

/-- The `unicorn/filename-case` value of the `**/*.jsx` files-scoped
layer (package/index.js lines 345-351). -/
def jsxFilenameCase : Json :=
  .arr [.str "error",
    .obj [("cases", .obj [("pascalCase", .bool true)]),
          ("ignore", .arr
            [.regex "^index\\.jsx$",
             .regex "^App\\.jsx$",
             .regex "^main\\.jsx$",
             .regex "^setupTests\\.jsx$",
             .regex "^.*\\.test\\.jsx$"])]]

/-- The `**/*.jsx` files-scoped layer (package/index.js lines 342-353). -/
def jsxLayer : Layer :=
  { files := some ["**/*.jsx".toList],
    rules := some [("unicorn/filename-case", jsxFilenameCase)] }

/-- The `unicorn/filename-case` value of the `**/*.js` files-scoped
layer (package/index.js lines 357-362). -/
def jsFilenameCase : Json :=
  .arr [.str "error", .obj [("cases", .obj [("camelCase", .bool true)])]]

/-- The `**/*.js` files-scoped layer (package/index.js lines 354-364). -/
def jsLayer : Layer :=
  { files := some ["**/*.js".toList],
    rules := some [("unicorn/filename-case", jsFilenameCase)] }

/-- The exported ordered configuration-layer list (package/index.js
lines 33-365).  `externals` stands for the opaque third-party layers
spliced in between the ignores layer and the main layer:
`eslint.configs.recommended` followed by the layers produced by
`compat.extends(...)`; their content is external to this repository. -/
def configLayers (cwd d : Str) (externals : List Layer) : List Layer :=
  ignoresLayer :: externals ++ [mainLayer cwd d, jsxLayer, jsLayer]

/-- Modelled from the spec: whether a `files` glob of the configuration
matches a file name.  The engine-side glob semantics are external; the
only patterns occurring in this configuration have the shape
`**/*<suffix>`, which match exactly the file names ending in the
suffix. -/
def matchesFilesGlob (pat file : Str) : Bool :=
  if ("**/*".toList).isPrefixOf pat then (pat.drop 4).isSuffixOf file
  else pat == file

/-- Modelled from the spec: a layer applies to a file when it carries no
`files` scope or when one of its `files` globs matches the file. -/
def layerApplies (file : Str) (l : Layer) : Bool :=
  match l.files with
  | none => true
  | some pats => pats.any (fun p => matchesFilesGlob p file)

/-- Modelled from the spec: rightmost-wins merge of two rules blocks
(spec section 6): for a key set by the second block the second block's
value is taken, otherwise the first block's. -/
def mergeRules (r1 r2 : List (String × Json)) (k : String) : Option Json :=
  match r2.lookup k with
  | some v => some v
  | none => r1.lookup k

/-- Modelled from the spec: one step of the layer-list merge, giving
precedence to the accumulated value of the later layers. -/
def ruleStep (file : Str) (k : String) (l : Layer) (acc : Option Json) : Option Json :=
  match acc with
  | some v => some v
  | none => if layerApplies file l then (l.rules.getD []).lookup k else none

/-- Modelled from the spec: the effective value of a rule key for a
file, merged over the ordered layer list with later layers taking
precedence (spec section 6). -/
def effectiveRule (layers : List Layer) (file : Str) (k : String) : Option Json :=
  layers.foldr (ruleStep file k) none

lemma find?_two (p : Str → Bool) (a b : Str) :
    [a, b].find? p = if p a then some a else if p b then some b else none := by
  by_cases ha : p a <;> by_cases hb : p b <;> simp [List.find?, ha, hb]

lemma bestMatch_consDir (d : Str) (t : List (Str × Str)) (s p o : Str)
    (h : bestMatch t s = some (p, o)) :
    bestMatch (t.map (fun x => (x.1, d ++ x.2))) s = some (p, d ++ o) :=
  bestMatch_map_eq (fun y => d ++ y) t s (p, o) h

lemma ruleStep_some (file : Str) (k : String) (l : Layer) (v : Json) :
    ruleStep file k l (some v) = some v := rfl

lemma foldr_ruleStep_some (file : Str) (k : String) (ls : List Layer) (v : Json) :
    ls.foldr (ruleStep file k) (some v) = some v := by
  induction ls with
  | nil => rfl
  | cons a t ih => simp only [List.foldr_cons, ih, ruleStep_some]

lemma suffix_self_append (a g : Str) : a.isSuffixOf (g ++ a) = true := by
  show (a.reverse).isPrefixOf ((g ++ a).reverse) = true
  rw [List.reverse_append]
  exact isPrefixOf_self_append _ _

lemma suffix_js_of_jsx (g : Str) :
    (".js".toList).isSuffixOf (g ++ ".jsx".toList) = false := by
  show ((".js".toList).reverse).isPrefixOf ((g ++ ".jsx".toList).reverse) = false
  rw [List.reverse_append]
  show ((('s' : Char) == 'x')
        && (['j', '.'] : Str).isPrefixOf (['s', 'j', '.'] ++ g.reverse)) = false
  rw [show (('s' : Char) == 'x') = false from rfl]
  exact Bool.false_and _

lemma jsxLayer_applies (g : Str) : layerApplies (g ++ ".jsx".toList) jsxLayer = true := by
  show ((".jsx".toList).isSuffixOf (g ++ ".jsx".toList) || false) = true
  rw [suffix_self_append]
  rfl

lemma jsLayer_not_applies (g : Str) : layerApplies (g ++ ".jsx".toList) jsLayer = false := by
  show ((".js".toList).isSuffixOf (g ++ ".jsx".toList) || false) = false
  rw [suffix_js_of_jsx]
  rfl

/-- The first component of a symbolic alias, up to the first slash. -/
def firstComponent (s : Str) : Str := s.takeWhile (fun c => c != '/')

/-- Claim C1: when more than one alias-table entry matches a specifier,
the scan selects an entry whose alias is at least as long as any other
matching alias (so the longest matching alias wins); in particular an
entry whose alias is a strict leading part of another matching table
alias is never the selected entry; concretely, on the table containing
the aliases for src and src/hooks, the specifier for src/hooks/useAuth
is mapped by the src/hooks entry. -/
theorem longestAliasWins :
    (∀ (t : List (Str × Str)) (s : Str) (e r : Str × Str),
        e ∈ t → e.1.isPrefixOf s = true → bestMatch t s = some r →
        r ∈ t ∧ r.1.isPrefixOf s = true ∧ e.1.length ≤ r.1.length) ∧
    (∀ (t : List (Str × Str)) (s : Str) (e1 e2 r : Str × Str),
        e1 ∈ t → e2 ∈ t → e1.1.isPrefixOf e2.1 = true → e1.1 ≠ e2.1 →
        e2.1.isPrefixOf s = true → bestMatch t s = some r → r ≠ e1) ∧
    bestMatch specExampleTable ("@hooks/useAuth".toList)
      = some ("@hooks".toList, "./src/hooks".toList) := by
  refine ⟨?_, ?_, by decide⟩
  · intro t s e r he hp h
    have hm := bestMatch_mem t s r h
    exact ⟨hm.1, hm.2, bestMatch_ge t s e hp r h he⟩
  · intro t s e1 e2 r he1 he2 hpp hne hp2 h
    have hlen2 : e2.1.length ≤ r.1.length := bestMatch_ge t s e2 hp2 r h he2
    rw [List.isPrefixOf_iff_prefix] at hpp
    have hlt : e1.1.length < e2.1.length := by
      rcases Nat.lt_or_ge e1.1.length e2.1.length with hcase | hcase
      · exact hcase
      · exact absurd (hpp.eq_of_length (Nat.le_antisymm hpp.length_le hcase)) hne
    intro hre
    rw [hre] at hlen2
    exact Nat.lt_irrefl _ (Nat.lt_of_lt_of_le hlt hlen2)

theorem longestAliasWins_witness :
    ("@hooks".toList, "./src/hooks".toList) ∈ specExampleTable ∧
    ("@hooks".toList).isPrefixOf ("@hooks/useAuth".toList) = true ∧
    ("@".toList).length ≤ ("@hooks".toList).length :=
  longestAliasWins.1 specExampleTable ("@hooks/useAuth".toList)
    ("@".toList, "./src".toList) ("@hooks".toList, "./src/hooks".toList)
    (by decide) (by decide) (by decide)

/-- Claim C2: merging two configuration layers of the exported list gives
the later layer's value for any rule key both set; for a file matching
the jsx files glob the effective filename-case setting is the
pascal-case-only value of the later files-scoped layer, which differs
from the camel-or-pascal value of the earlier base layer. -/
theorem rulesMergeRightmostWins (cwd d : Str) (ext : List Layer) :
    (∀ l1 l2, l1 ∈ configLayers cwd d ext → l2 ∈ configLayers cwd d ext →
      ∀ k v1 v2, (l1.rules.getD []).lookup k = some v1 →
        (l2.rules.getD []).lookup k = some v2 →
        mergeRules (l1.rules.getD []) (l2.rules.getD []) k = some v2) ∧
    (∀ f, matchesFilesGlob ("**/*.jsx".toList) f = true →
      effectiveRule (configLayers cwd d ext) f "unicorn/filename-case"
        = some jsxFilenameCase) ∧
    jsxFilenameCase ≠ mainFilenameCase := by
  refine ⟨?_, ?_, by simp [jsxFilenameCase, mainFilenameCase]⟩
  · intro l1 l2 h1 h2 k v1 v2 hv1 hv2
    unfold mergeRules
    rw [hv2]
  · intro f hm
    have hsuf : (".jsx".toList).isSuffixOf f = true := hm
    rw [List.isSuffixOf_iff_suffix] at hsuf
    obtain ⟨g, hg⟩ := hsuf
    subst hg
    have hjs : ruleStep (g ++ ".jsx".toList) "unicorn/filename-case" jsLayer none
        = none := by
      show (if layerApplies (g ++ ".jsx".toList) jsLayer
            then ([("unicorn/filename-case", jsFilenameCase)].lookup "unicorn/filename-case")
            else none) = none
      rw [jsLayer_not_applies g]
      rfl
    have hjsx : ruleStep (g ++ ".jsx".toList) "unicorn/filename-case" jsxLayer none
        = some jsxFilenameCase := by
      show (if layerApplies (g ++ ".jsx".toList) jsxLayer
            then ([("unicorn/filename-case", jsxFilenameCase)].lookup "unicorn/filename-case")
            else none) = some jsxFilenameCase
      rw [jsxLayer_applies g]
      rfl
    simp only [effectiveRule, configLayers, List.foldr_cons, List.foldr_append,
      List.foldr_nil]
    rw [hjs, hjsx, ruleStep_some, foldr_ruleStep_some, ruleStep_some]

theorem rulesMergeRightmostWins_witness :
    effectiveRule (configLayers ("/w".toList) ("/cfg".toList) []) ("Button.jsx".toList)
      "unicorn/filename-case" = some jsxFilenameCase :=
  (rulesMergeRightmostWins ("/w".toList) ("/cfg".toList) []).2.1
    ("Button.jsx".toList) (by decide)

/-- Claim C3: once a specifier is matched to a table entry, the resolver
tries the configured extension list in order and returns the first
candidate file present in the filesystem; it signals unresolved exactly
when no candidate exists, so a candidate for the earlier-listed js
extension beats one for the jsx extension. -/
theorem resolveExtensionOrder (table : List (Str × Str)) (fs : List Str) (s : Str)
    (e : Str × Str) (h : bestMatch table s = some e) :
    (fs.contains (e.2 ++ s.drop e.1.length ++ ".js".toList) = true →
      resolve table cfgExtensions fs s
        = Resolution.resolved (e.2 ++ s.drop e.1.length ++ ".js".toList)) ∧
    (fs.contains (e.2 ++ s.drop e.1.length ++ ".js".toList) = false →
      fs.contains (e.2 ++ s.drop e.1.length ++ ".jsx".toList) = true →
      resolve table cfgExtensions fs s
        = Resolution.resolved (e.2 ++ s.drop e.1.length ++ ".jsx".toList)) ∧
    (fs.contains (e.2 ++ s.drop e.1.length ++ ".js".toList) = false →
      fs.contains (e.2 ++ s.drop e.1.length ++ ".jsx".toList) = false →
      resolve table cfgExtensions fs s = Resolution.unresolved) := by
  unfold resolve
  rw [h]
  refine ⟨?_, ?_, ?_⟩
  · intro h1
    simp only [cfgExtensions, find?_two]
    simp at h1
    simp [h1]
  · intro h1 h2
    simp only [cfgExtensions, find?_two]
    simp at h1 h2
    simp [h1, h2]
  · intro h1 h2
    simp only [cfgExtensions, find?_two]
    simp at h1 h2
    simp [h1, h2]

theorem resolveExtensionOrder_witness :
    resolve specExampleTable cfgExtensions
      ["./src/hooks/useAuth.js".toList, "./src/hooks/useAuth.jsx".toList]
      ("@hooks/useAuth".toList)
      = Resolution.resolved ("./src/hooks/useAuth.js".toList) :=
  (resolveExtensionOrder specExampleTable
      ["./src/hooks/useAuth.js".toList, "./src/hooks/useAuth.jsx".toList]
      ("@hooks/useAuth".toList)
      ("@hooks".toList, "./src/hooks".toList) (by decide)).1 (by decide)

/-- Claim C4: a specifier matched by no symbolic alias of the table is
answered with the explicit not-an-alias signal; being a total function of
the embedding, the resolver returns this signal rather than raising. -/
theorem resolveNoMatchNotAnAlias (table : List (Str × Str)) (exts fs : List Str)
    (s : Str) (h : ∀ e ∈ table, e.1.isPrefixOf s = false) :
    resolve table exts fs s = Resolution.notAnAlias := by
  unfold resolve
  rw [(bestMatch_none_iff table s).mpr h]

theorem resolveNoMatchNotAnAlias_witness :
    resolve (aliasMap ("/w".toList) ("/cfg".toList)) cfgExtensions []
      ("utils/missing".toList) = Resolution.notAnAlias :=
  resolveNoMatchNotAnAlias (aliasMap ("/w".toList) ("/cfg".toList)) cfgExtensions []
    ("utils/missing".toList) (by decide)

/-- Claim C5, counterexample: in the shipped table the aliases for
src/lib/context and src/lib are non-overlapping (neither is a leading
part of the other), yet resolving the context alias plus a segment
yields a path that does lie under the directory configured for the lib
alias, because the context directory is physically nested inside the
lib directory. -/
theorem nonOverlapPathsCounterexample :
    (("@context".toList, "/cfg/src/lib/context".toList)
        ∈ aliasMap ("/w".toList) ("/cfg".toList)) ∧
    (("@lib".toList, "/cfg/src/lib".toList) ∈ aliasMap ("/w".toList) ("/cfg".toList)) ∧
    ("@context".toList).isPrefixOf ("@lib".toList) = false ∧
    ("@lib".toList).isPrefixOf ("@context".toList) = false ∧
    bestMatch (aliasMap ("/w".toList) ("/cfg".toList)) ("@context/x".toList)
      = some ("@context".toList, "/cfg/src/lib/context".toList) ∧
    ("/cfg/src/lib".toList).isPrefixOf ("/cfg/src/lib/context".toList ++ "/x".toList)
      = true := by
  decide

/-- Claim C5, amended: for non-overlapping aliases of the shipped table,
resolving the first alias plus a segment is mapped by that alias's own
entry and the path lies under its configured directory; it never lies
under the second alias's directory, provided the second alias's
directory is not itself an ancestor of the first one's (the proviso the
lib/context and lib/constants directory nesting forces). -/
theorem nonOverlapAliasSelection (cwd d : Str) (hd : isAbsolute d = true) :
    ∀ e1 ∈ aliasMap cwd d, ∀ e2 ∈ aliasMap cwd d,
      e1.1.isPrefixOf e2.1 = false → e2.1.isPrefixOf e1.1 = false →
      e2.2.isPrefixOf e1.2 = false →
      bestMatch (aliasMap cwd d) (e1.1 ++ "/x".toList) = some e1 ∧
      e1.2.isPrefixOf (e1.2 ++ "/x".toList) = true ∧
      e2.2.isPrefixOf (e1.2 ++ "/x".toList) = false := by
  intro e1 h1 e2 h2 h12 h21 hdir
  rw [aliasMap_abs cwd d hd] at h1 h2
  simp [absPairs] at h1 h2
  rcases h1 with rfl|rfl|rfl|rfl|rfl|rfl|rfl|rfl|rfl|rfl <;>
    rcases h2 with rfl|rfl|rfl|rfl|rfl|rfl|rfl|rfl|rfl|rfl <;>
    (try dsimp only at h12 h21 hdir ⊢) <;>
    first
      | exact absurd h12 (by decide)
      | exact absurd h21 (by decide)
      | (rw [isPrefixOf_append_left] at hdir
         exact absurd hdir (by decide))
      | (refine ⟨?_, isPrefixOf_self_append _ _, ?_⟩
         · rw [aliasMap_abs cwd d hd]
           exact bestMatch_consDir d absPairs _ _ _ (by decide)
         · rw [List.append_assoc, isPrefixOf_append_left]
           decide)

theorem nonOverlapAliasSelection_witness :
    bestMatch (aliasMap ("/w".toList) ("/cfg".toList)) ("@hooks".toList ++ "/x".toList)
      = some ("@hooks".toList, "/cfg/src/hooks".toList) ∧
    ("/cfg/src/hooks".toList).isPrefixOf ("/cfg/src/hooks".toList ++ "/x".toList) = true ∧
    ("/cfg/src/lib".toList).isPrefixOf ("/cfg/src/hooks".toList ++ "/x".toList) = false :=
  nonOverlapAliasSelection ("/w".toList) ("/cfg".toList) (by decide)
    ("@hooks".toList, "/cfg/src/hooks".toList) (by decide)
    ("@lib".toList, "/cfg/src/lib".toList) (by decide)
    (by decide) (by decide) (by decide)

/-- Claim C6: the ten entries of the alias table have pairwise distinct
symbolic aliases, and also pairwise distinct first components (every
alias is a single component, with no slash). -/
theorem aliasPrefixesUnique (cwd d : Str) :
    (aliasMap cwd d).length = 10 ∧
    ((aliasMap cwd d).map (fun e => firstComponent e.1)).Nodup ∧
    ((aliasMap cwd d).map Prod.fst).Nodup := by
  refine ⟨rfl, ?_, ?_⟩
  · have h : (aliasMap cwd d).map (fun e => firstComponent e.1)
        = ["@".toList, "@hooks".toList, "@lib".toList, "@context".toList,
           "@pages".toList, "@constants".toList, "@api".toList, "@query".toList,
           "@store".toList, "@public".toList] := rfl
    rw [h]
    decide
  · have h : (aliasMap cwd d).map Prod.fst
        = ["@".toList, "@hooks".toList, "@lib".toList, "@context".toList,
           "@pages".toList, "@constants".toList, "@api".toList, "@query".toList,
           "@store".toList, "@public".toList] := rfl
    rw [h]
    decide

/-- Claim C7: the physical directories of the alias table depend only on
the config module's own directory (an absolute path at load time), not
on the consuming process working directory: two runs differing only in
the working directory build the same table. -/
theorem aliasTableCwdIndependent (cwd1 cwd2 d : Str) (hd : isAbsolute d = true) :
    aliasMap cwd1 d = aliasMap cwd2 d := by
  rw [aliasMap_abs cwd1 d hd, aliasMap_abs cwd2 d hd]

theorem aliasTableCwdIndependent_witness :
    aliasMap ("/a".toList) ("/cfg".toList) = aliasMap ("/b".toList) ("/cfg".toList) :=
  aliasTableCwdIndependent ("/a".toList) ("/b".toList) ("/cfg".toList) (by decide)

/-- Claim C8: for a table holding two entries with the very same
symbolic alias, the scan ignores the entry added earlier in construction
order, so the later entry's directory is returned; on a two-entry table
with a duplicated alias the second entry is selected. -/
theorem duplicateAliasLastWins :
    (∀ (t : List (Str × Str)) (e1 e2 : Str × Str) (s : Str),
        e1.1 = e2.1 → e1.1.isPrefixOf s = true → e2 ∈ t →
        bestMatch (e1 :: t) s = bestMatch t s) ∧
    (∀ (p d1 d2 s : Str), p.isPrefixOf s = true →
        bestMatch [(p, d1), (p, d2)] s = some (p, d2)) := by
  constructor
  · intro t e1 e2 s heq hp hmem
    simp only [bestMatch]
    rcases h : bestMatch t s with _ | r
    · have := (bestMatch_none_iff t s).mp h e2 hmem
      rw [← heq, hp] at this
      exact Bool.noConfusion this
    · have hge : e1.1.length ≤ r.1.length := by
        rw [heq]
        exact bestMatch_ge t s e2 (by rw [← heq]; exact hp) r h hmem
      simp only [pickBetter]
      rw [decide_eq_false (Nat.not_lt.mpr hge), Bool.and_false, if_neg (by simp)]
  · intro p d1 d2 s hp
    simp [bestMatch, pickBetter, hp]

theorem duplicateAliasLastWins_witness :
    bestMatch [("@x".toList, "./a".toList), ("@x".toList, "./b".toList)]
      ("@x/y".toList) = some ("@x".toList, "./b".toList) :=
  duplicateAliasLastWins.2 ("@x".toList) ("./a".toList) ("./b".toList)
    ("@x/y".toList) (by decide)

/-- Claim C9: every physical directory of the alias table lies inside
the configuration package's own tree: each is the package directory
joined with src, a subdirectory of src, or public. -/
theorem aliasDirsInsidePackage (cwd d : Str) (hd : isAbsolute d = true) :
    ∀ e ∈ aliasMap cwd d,
      (d ++ "/src".toList).isPrefixOf e.2 = true ∨ e.2 = d ++ "/public".toList := by
  rw [aliasMap_abs cwd d hd]
  intro e he
  simp [absPairs] at he
  rcases he with rfl|rfl|rfl|rfl|rfl|rfl|rfl|rfl|rfl|rfl <;>
    (try dsimp only) <;>
    first
      | (left
         rw [isPrefixOf_append_left]
         decide)
      | (right
         rfl)

theorem aliasDirsInsidePackage_witness :
    ("/cfg".toList ++ "/src".toList).isPrefixOf ("/cfg/src/hooks".toList) = true ∨
    ("/cfg/src/hooks".toList : Str) = "/cfg".toList ++ "/public".toList :=
  aliasDirsInsidePackage ("/w".toList) ("/cfg".toList) (by decide)
    ("@hooks".toList, "/cfg/src/hooks".toList) (by decide)

/-- Claim C10: the first entry of the exported layer list is the
global-ignores layer carrying only the ignores key, and the alias
resolver and node resolver are configured with the same extension list,
js before jsx. -/
theorem ignoresFirstLayerAndExtensionsAgree (cwd d : Str) (ext : List Layer) :
    (configLayers cwd d ext).head? = some ignoresLayer ∧
    ignoresLayer.ignores = some
      ["dist/**/*".toList, "build/**/*".toList, "node_modules/**/*".toList,
       "vite.config.js".toList, "src/components/ui/**/*".toList, "public/**/*".toList,
       "*.min.js".toList, ".prettierrc.cjs".toList, "eslint.config.js".toList] ∧
    ignoresLayer.files = none ∧ ignoresLayer.rules = none ∧
    ignoresLayer.plugins = none ∧ ignoresLayer.settings = none ∧
    ignoresLayer.languageOptions = none ∧
    (mainLayer cwd d).settings = some (mainSettings cwd d) ∧
    (mainSettings cwd d).importResolver.aliasExtensions
      = (mainSettings cwd d).importResolver.nodeExtensions ∧
    (mainSettings cwd d).importResolver.aliasExtensions = cfgExtensions ∧
    cfgExtensions = [".js".toList, ".jsx".toList] :=
  ⟨rfl, rfl, rfl, rfl, rfl, rfl, rfl, rfl, rfl, rfl, rfl⟩
